import Mathlib

/-!
Verification of the NestJS-RBAC authorization layer: a shallow embedding of
the guards (authentication and authorization), the credential stores, and the
login flows of the three capability-model variants, with theorems settling the
specification claims.

TypeScript string enums are plain strings at runtime, so the three capability
vocabularies are embedded as `String` constants.  JavaScript `undefined`
fields become `Option`; JS truthiness of strings (empty string is falsy) and
arrays (empty array is truthy) is modelled explicitly at each use site, as in
the source.
-/

namespace RBAC

/-- An HTTP exception as thrown by the guards: status code plus message
(`UnauthorizedException` is 401, `ForbiddenException` is 403). -/
structure HttpException where
  status : Nat
  message : String
deriving DecidableEq, Repr

namespace Role

/-- `Role.READ` from roles.enum.ts. -/
def READ : String := "read"

/-- `Role.ADMIN` from roles.enum.ts. -/
def ADMIN : String := "admin"

/-- `Role.MANAGER` from roles.enum.ts. -/
def MANAGER : String := "manager"

/-- `Role.SUPER_ADMIN` from roles.enum.ts. -/
def SUPER_ADMIN : String := "super_admin"

end Role

namespace Permission

/-- `Permission.READ` from permissions.enum.ts. -/
def READ : String := "read"

/-- `Permission.CREATE` from permissions.enum.ts. -/
def CREATE : String := "create"

/-- `Permission.UPDATE` from permissions.enum.ts. -/
def UPDATE : String := "update"

/-- `Permission.DELETE` from permissions.enum.ts. -/
def DELETE : String := "delete"

end Permission

/-- The `request.user` object as read by the authorization guards.  In JS both
the object and its `roles` / `permissions` fields may independently be absent
(`undefined`), while an empty array is present (and truthy). -/
structure GuardUser where
  roles : Option (List String) := none
  permissions : Option (List String) := none
deriving DecidableEq, Repr

/-- `RolesGuard.canActivate` (example1, roles.guard.ts), with the reflector
metadata (`requiredRoles`, possibly absent) and `request.user` as inputs.
ANY rule: the caller needs at least one required role. -/
def rolesGuardCanActivate (requiredRoles : Option (List String))
    (user : Option GuardUser) : Except HttpException Bool :=
  match requiredRoles with
  | none => .ok true
  | some req =>
    if req.isEmpty then .ok true
    else
      match user with
      | none => .error ⟨403, "User roles not found"⟩
      | some u =>
        match u.roles with
        | none => .error ⟨403, "User roles not found"⟩
        | some granted =>
          if req.any (fun r => granted.contains r) then .ok true
          else
            .error ⟨403, "Access denied. Required roles: " ++
              String.intercalate ", " req ++ ". Your roles: " ++
              String.intercalate ", " granted⟩

/-- `PermissionsGuard.canActivate` (example2, permissions.guard.ts).
ALL rule: the caller needs every required permission; the denial message
lists the missing permissions and echoes the caller's permissions. -/
def permissionsGuardCanActivate (requiredPermissions : Option (List String))
    (user : Option GuardUser) : Except HttpException Bool :=
  match requiredPermissions with
  | none => .ok true
  | some req =>
    if req.isEmpty then .ok true
    else
      match user with
      | none => .error ⟨403, "User permissions not found"⟩
      | some u =>
        match u.permissions with
        | none => .error ⟨403, "User permissions not found"⟩
        | some granted =>
          if req.all (fun p => granted.contains p) then .ok true
          else
            .error ⟨403, "Access denied. Missing permissions: " ++
              String.intercalate ", " (req.filter (fun p => !(granted.contains p))) ++
              ". Your permissions: " ++ String.intercalate ", " granted⟩

/-- `ModulePermissionsGuard.canActivate` (example3, module-permissions guard).
ALL rule; the denial message lists only the missing permissions. -/
def modulePermissionsGuardCanActivate (requiredPermissions : Option (List String))
    (user : Option GuardUser) : Except HttpException Bool :=
  match requiredPermissions with
  | none => .ok true
  | some req =>
    if req.isEmpty then .ok true
    else
      match user with
      | none => .error ⟨403, "User permissions not found"⟩
      | some u =>
        match u.permissions with
        | none => .error ⟨403, "User permissions not found"⟩
        | some granted =>
          if req.all (fun p => granted.contains p) then .ok true
          else
            .error ⟨403, "Access denied. Missing permissions: " ++
              String.intercalate ", " (req.filter (fun p => !(granted.contains p)))⟩

/-- Decidable equality for `Except`, used to evaluate guard outcomes on
concrete inputs. -/
instance exceptDecEq {ε α : Type} [DecidableEq ε] [DecidableEq α] :
    DecidableEq (Except ε α) := fun a b =>
  match a, b with
  | .ok x, .ok y =>
    if h : x = y then .isTrue (by rw [h]) else .isFalse (by intro hc; cases hc; exact h rfl)
  | .error x, .error y =>
    if h : x = y then .isTrue (by rw [h]) else .isFalse (by intro hc; cases hc; exact h rfl)
  | .ok _, .error _ => .isFalse (by intro hc; cases hc)
  | .error _, .ok _ => .isFalse (by intro hc; cases hc)

/-- JavaScript `String.prototype.split(' ')` on the character list: splits at
every single space and keeps empty segments (non-collapsing); the result is
always non-empty. -/
def jsSplitSpaceChars : List Char → List (List Char)
  | [] => [[]]
  | c :: cs =>
    if c = ' ' then [] :: jsSplitSpaceChars cs
    else
      match jsSplitSpaceChars cs with
      | [] => [[c]]
      | seg :: rest => (c :: seg) :: rest

/-- JavaScript `authHeader.split(' ')`. -/
def jsSplitSpace (s : String) : List String :=
  (jsSplitSpaceChars s.toList).map (fun cs => String.mk cs)

/-- `AuthGuard.extractTokenFromHeader` (example2/example3 auth.guard.ts):
`const [ty, token] = authHeader.split(' '); return ty === 'Bearer' ? token :
undefined`.  A JS-falsy (absent or empty) header returns `undefined`; the
destructuring takes exactly the first two segments, ignoring the rest. -/
def extractTokenFromHeader (authHeader : Option String) : Option String :=
  match authHeader with
  | none => none
  | some h =>
    if h.isEmpty then none
    else
      let parts := jsSplitSpace h
      if parts.headD "" = "Bearer" then parts[1]? else none

/-- A user record in the example2 `AuthGuard`'s inline token map. -/
structure AuthUser where
  id : String
  username : String
  email : String
  permissions : List String
deriving DecidableEq, Repr

open Permission in
/-- The inline token map of `AuthGuard.validateToken` (example2
auth.guard.ts). -/
def authGuardUsers : List (String × AuthUser) :=
  [("token-read-only", ⟨"1", "reader", "reader@example.com", [READ]⟩),
   ("token-creator", ⟨"2", "creator", "creator@example.com", [READ, CREATE]⟩),
   ("token-editor", ⟨"3", "editor", "editor@example.com", [READ, UPDATE]⟩),
   ("token-full-access", ⟨"4", "admin", "admin@example.com", [READ, CREATE, UPDATE, DELETE]⟩)]

/-- `AuthGuard.validateToken` (example2 auth.guard.ts): `users.get(token) ||
null`.  A pure map lookup; it has no failure path. -/
def authGuardValidateToken (token : String) : Option AuthUser :=
  (authGuardUsers.find? (fun p => p.1 == token)).map Prod.snd

/-- The slice of the HTTP request the guards read and write: the
`authorization` header and the `user` field attached on successful
authentication. -/
structure Request where
  authorizationHeader : Option String
  user : Option AuthUser := none
deriving DecidableEq, Repr

/-- The 401 `UnauthorizedException('Authentication token not found')` thrown
when no bearer token can be extracted. -/
def missingTokenError : HttpException := ⟨401, "Authentication token not found"⟩

/-- The 401 surfaced for an unknown token.  In the source the inner
`UnauthorizedException('Invalid authentication token')` is thrown inside the
`try` block and replaced by the `catch` handler, so the message the caller
sees is `Token validation failed`; since `validateToken` is a pure map lookup
with no other failure path, this is exactly the unknown-token error. -/
def invalidTokenError : HttpException := ⟨401, "Token validation failed"⟩

/-- `AuthGuard.canActivate` (example2 auth.guard.ts).  Returns the (possibly
updated) request on success so that the frame effect on `request.user` is
visible.  JS truthiness: an extracted token that is `undefined` or the empty
string fails the `if (!token)` check. -/
def authGuardCanActivate (isPublic : Bool) (req : Request) :
    Except HttpException Request :=
  if isPublic then .ok req
  else
    match extractTokenFromHeader req.authorizationHeader with
    | none => .error missingTokenError
    | some tok =>
      if tok.isEmpty then .error missingTokenError
      else
        match authGuardValidateToken tok with
        | none => .error invalidTokenError
        | some u => .ok { req with user := some u }

/-- `request.user` as the example2 `PermissionsGuard` sees it after the
`AuthGuard` attached an `AuthUser`: the `permissions` field is present, the
`roles` field is absent. -/
def toGuardUser (u : AuthUser) : GuardUser :=
  { roles := none, permissions := some u.permissions }

/-- The example2 guard chain as registered on `PostsController`:
`@UseGuards(AuthGuard, PermissionsGuard)` — authentication first, then
authorization, short-circuiting on the first thrown exception. -/
def example2GuardChain (isPublic : Bool) (requiredPermissions : Option (List String))
    (req : Request) : Except HttpException Request :=
  match authGuardCanActivate isPublic req with
  | .error e => .error e
  | .ok req2 =>
    match permissionsGuardCanActivate requiredPermissions (req2.user.map toGuardUser) with
    | .error e => .error e
    | .ok _ => .ok req2

/-- Route-level metadata read by the guards through the reflector: the
`@Public()` flag and the `@RequirePermissions(...)` list (absent when the
decorator is missing). -/
structure RouteMeta where
  isPublic : Bool
  requiredPermissions : Option (List String)
deriving DecidableEq, Repr

open Permission in
/-- The routes of the example2 `PostsController` with their decorator
metadata (posts.controller.ts). -/
def example2Routes : List (String × RouteMeta) :=
  [("GET /example2/posts/public", ⟨true, none⟩),
   ("GET /example2/posts", ⟨false, some [READ]⟩),
   ("GET /example2/posts/:id", ⟨false, some [READ]⟩),
   ("POST /example2/posts", ⟨false, some [CREATE]⟩),
   ("PUT /example2/posts/:id", ⟨false, some [UPDATE]⟩),
   ("DELETE /example2/posts/:id", ⟨false, some [DELETE]⟩),
   ("PUT /example2/posts/:id/publish", ⟨false, some [UPDATE, CREATE]⟩),
   ("POST /example2/auth/login", ⟨true, none⟩)]

/-- The value stored in the example2 `AuthService.tokenMap`:
`{ username, permissions }`. -/
structure TokenRecord where
  username : String
  permissions : List String
deriving DecidableEq, Repr

/-- A JS `Map<string, α>`, observed only through `get`/`has`/`set`;
modelled as an association list where the most recent binding wins. -/
abbrev TokenMap (α : Type) : Type := List (String × α)

/-- JS `Map.prototype.get` (as `get(token)` — `undefined` on a miss). -/
def tokenMapGet {α : Type} (m : TokenMap α) (k : String) : Option α :=
  (m.find? (fun p => p.1 == k)).map Prod.snd

/-- JS `Map.prototype.has`. -/
def tokenMapHas {α : Type} (m : TokenMap α) (k : String) : Bool :=
  (tokenMapGet m k).isSome

/-- JS `Map.prototype.set`: insert-or-overwrite; the new binding shadows any
older one with the same key. -/
def tokenMapSet {α : Type} (m : TokenMap α) (k : String) (v : α) : TokenMap α :=
  (k, v) :: m

/-- The token string built by `generateToken` (example2/example3
auth.service.ts): `token-<username>-<Date.now()>-<random suffix>`, with the
clock reading and the random suffix as explicit parameters. -/
def makeToken (username : String) (now : Nat) (rand : String) : String :=
  "token-" ++ username ++ "-" ++ toString now ++ "-" ++ rand

/-- `AuthService.generateToken` (example2 auth.service.ts): builds the token,
stores `{username, permissions}` under it in the token map, and returns it.
The updated map is returned alongside the token. -/
def generateToken (m : TokenMap TokenRecord) (username : String)
    (permissions : List String) (now : Nat) (rand : String) :
    TokenMap TokenRecord × String :=
  let token := makeToken username now rand
  (tokenMapSet m token ⟨username, permissions⟩, token)

open Permission in
/-- The `predefinedTokens` fallback table of `AuthService.validateToken`
(example2 auth.service.ts). -/
def predefinedTokens : List (String × TokenRecord) :=
  [("token-read-only", ⟨"reader", [READ]⟩),
   ("token-creator", ⟨"creator", [READ, CREATE]⟩),
   ("token-editor", ⟨"editor", [READ, UPDATE]⟩),
   ("token-full-access", ⟨"admin", [READ, CREATE, UPDATE, DELETE]⟩)]

/-- `AuthService.validateToken` (example2 auth.service.ts): dynamic token map
first, then the predefined-token table, `null` for unknown tokens; a pure
lookup that never throws. -/
def validateToken (m : TokenMap TokenRecord) (token : String) : Option TokenRecord :=
  if tokenMapHas m token then tokenMapGet m token
  else (predefinedTokens.find? (fun p => p.1 == token)).map Prod.snd

/-- A row of the example2 `AuthService.users` mock directory. -/
structure DirectoryUser where
  username : String
  password : String
  permissions : List String
deriving DecidableEq, Repr

open Permission in
/-- The example2 `AuthService.users` mock directory (auth.service.ts). -/
def authServiceUsers : List DirectoryUser :=
  [⟨"reader", "password123", [READ]⟩,
   ⟨"creator", "password123", [READ, CREATE]⟩,
   ⟨"editor", "password123", [READ, UPDATE]⟩,
   ⟨"admin", "password123", [READ, CREATE, UPDATE, DELETE]⟩]

/-- `AuthService.validateUser` (example2 auth.service.ts): exact username
AND password match. -/
def authServiceValidateUser (username password : String) : Option DirectoryUser :=
  authServiceUsers.find? (fun u => u.username == username && u.password == password)

namespace ModulePermission

/-- `Object.values(ModulePermission)` (example3
module-permissions.enum.ts), in declaration order. -/
def allValues : List String :=
  ["users:list", "users:read", "users:create", "users:update", "users:delete",
   "posts:list", "posts:read", "posts:create", "posts:update", "posts:delete",
   "posts:publish",
   "products:list", "products:read", "products:create", "products:update",
   "products:delete", "products:manage_inventory",
   "orders:list", "orders:read", "orders:create", "orders:update",
   "orders:delete", "orders:cancel", "orders:refund"]

end ModulePermission

/-- The value stored in the example3 `AuthService.tokenMap`:
`{ username, role, permissions }`. -/
structure ModuleTokenRecord where
  username : String
  role : String
  permissions : List String
deriving DecidableEq, Repr

/-- `AuthService.generateToken` (example3 auth.service.ts): same token shape,
storing `{username, role, permissions}`. -/
def generateToken3 (m : TokenMap ModuleTokenRecord) (username role : String)
    (permissions : List String) (now : Nat) (rand : String) :
    TokenMap ModuleTokenRecord × String :=
  let token := makeToken username now rand
  (tokenMapSet m token ⟨username, role, permissions⟩, token)

/-- The `predefinedTokens` fallback table of the example3
`AuthService.validateToken` (auth.service.ts). -/
def predefinedTokens3 : List (String × ModuleTokenRecord) :=
  [("token-admin-full", ⟨"admin", "Administrator", ModulePermission.allValues⟩),
   ("token-content-manager", ⟨"content_manager", "Content Manager",
      ["posts:list", "posts:read", "posts:create", "posts:update",
       "posts:delete", "posts:publish"]⟩),
   ("token-product-manager", ⟨"product_manager", "Product Manager",
      ["products:list", "products:read", "products:create", "products:update",
       "products:delete", "products:manage_inventory"]⟩),
   ("token-customer-service", ⟨"customer_service", "Customer Service",
      ["users:list", "users:read", "users:update", "orders:list",
       "orders:read", "orders:update", "orders:cancel", "orders:refund"]⟩),
   ("token-readonly", ⟨"readonly", "Read Only User",
      ["users:list", "users:read", "posts:list", "posts:read",
       "products:list", "products:read", "orders:list", "orders:read"]⟩)]

/-- `AuthService.validateToken` (example3 auth.service.ts): dynamic token map
first, then the predefined-token table, `null` for unknown tokens. -/
def validateToken3 (m : TokenMap ModuleTokenRecord) (token : String) :
    Option ModuleTokenRecord :=
  if tokenMapHas m token then tokenMapGet m token
  else (predefinedTokens3.find? (fun p => p.1 == token)).map Prod.snd

/-- A user record of the example1 JWT service (jwt.service.ts `UserData`). -/
structure UserData where
  id : String
  username : String
  email : String
  roles : List String
deriving DecidableEq, Repr

open Role in
/-- The mock user directory of `JwtAuthService.validateUser` (example1
jwt.service.ts). -/
def example1Users : List UserData :=
  [⟨"1", "john_admin", "john@example.com", [ADMIN, READ]⟩,
   ⟨"2", "jane_manager", "jane@example.com", [MANAGER, READ]⟩,
   ⟨"3", "super_admin", "super@example.com", [SUPER_ADMIN, ADMIN, MANAGER, READ]⟩,
   ⟨"4", "reader", "reader@example.com", [READ]⟩]

/-- `JwtAuthService.validateUser` (example1 jwt.service.ts): finds the user
by username alone; the password argument is ignored ("For demo purposes, we
just check if user exists"). -/
def jwtValidateUser (username : String) (_password : String) : Option UserData :=
  example1Users.find? (fun u => u.username == username)

/-- The `signOptions` of the example1 `JwtModule.register` call. -/
structure JwtSignOptions where
  expiresIn : Option String
deriving DecidableEq, Repr

/-- The `JwtModule.register` configuration (example1.module.ts). -/
structure JwtModuleConfig where
  secret : String
  signOptions : JwtSignOptions
deriving DecidableEq, Repr

/-- The configuration passed to `JwtModule.register` in example1.module.ts:
`expiresIn: '24h'` — the source's own comment: "Token expires in 24 hours". -/
def example1JwtConfig : JwtModuleConfig :=
  ⟨"your-secret-key-change-this-in-production", ⟨some "24h"⟩⟩

/-- Modelled from the spec: the `@nestjs/jwt` collaborator (`sign` /
`verifyAsync`) is external to this repository.  Per the spec's Credential
Store contract (`issueToken`/`resolve` as an inverse pair), a signed token is
modelled as its payload plus the issuance instant; verification recovers the
payload exactly while the token is within the lifetime that
`example1JwtConfig` configures (`expiresIn: '24h'`). -/
structure JwtToken where
  payload : UserData
  issuedAtMs : Nat
deriving DecidableEq, Repr

/-- The configured 24-hour token lifetime in milliseconds. -/
def jwtExpiryMs : Nat := 24 * 60 * 60 * 1000

/-- Modelled from the spec: `jwtService.sign(payload)` of the external JWT
collaborator. -/
def jwtSign (payload : UserData) (nowMs : Nat) : JwtToken := ⟨payload, nowMs⟩

/-- Modelled from the spec: `jwtService.verifyAsync(token)` of the external
JWT collaborator — returns the payload while the token is unexpired, and the
`null` that `JwtAuthService.verifyToken` maps failures to afterwards. -/
def jwtVerify (t : JwtToken) (nowMs : Nat) : Option UserData :=
  if nowMs ≤ t.issuedAtMs + jwtExpiryMs then some t.payload else none

/-- The successful login response body of the example1 `login` handler
(users.controller.ts). -/
structure LoginResult where
  message : String
  token : JwtToken
  username : String
  roles : List String
deriving DecidableEq, Repr

/-- The example1 `login` handler (users.controller.ts): `validateUser`, 401
on failure, otherwise `generateToken(user)` and the success body. -/
def example1Login (username password : String) (nowMs : Nat) :
    Except HttpException LoginResult :=
  match jwtValidateUser username password with
  | none => .error ⟨401, "Invalid username or password"⟩
  | some user =>
    .ok ⟨"Login successful", jwtSign user nowMs, user.username, user.roles⟩

/-- The three interchangeable capability-model variants. -/
inductive CapabilityVariant
  | hierarchicalRole
  | actionPermission
  | modulePermission
deriving DecidableEq, Repr

/-- The token-lifetime configuration each variant declares: example1 issues
JWTs with the `expiresIn` of `example1JwtConfig`; examples 2 and 3 keep
tokens in an in-memory map that has no TTL and no eviction. -/
def tokenExpiryConfig : CapabilityVariant → Option String
  | .hierarchicalRole => example1JwtConfig.signOptions.expiresIn
  | .actionPermission => none
  | .modulePermission => none

/-! ## Theorems -/

/-- C1: for the hierarchical-role model (ANY rule), with a non-empty required
role list and a user whose `roles` field is present, access is allowed iff
some required role is among the granted roles; on denial the 403 message
enumerates all required roles and the caller's roles. -/
theorem rolesGuard_any_rule (req granted : List String) (hreq : req ≠ []) :
    (rolesGuardCanActivate (some req) (some { roles := some granted }) = .ok true ↔
      ∃ r, r ∈ req ∧ r ∈ granted) ∧
    (¬ (∃ r, r ∈ req ∧ r ∈ granted) →
      rolesGuardCanActivate (some req) (some { roles := some granted }) =
        .error ⟨403, "Access denied. Required roles: " ++ String.intercalate ", " req ++
          ". Your roles: " ++ String.intercalate ", " granted⟩) := by
  have hne : req.isEmpty = false := by
    cases req with
    | nil => exact absurd rfl hreq
    | cons a l => rfl
  constructor
  · simp only [rolesGuardCanActivate, hne, Bool.false_eq_true, if_false]
    by_cases hany : ∃ r, r ∈ req ∧ r ∈ granted
    · have : req.any (fun r => granted.contains r) = true := by
        rcases hany with ⟨r, hr, hg⟩
        simp only [List.any_eq_true]
        exact ⟨r, hr, by simpa using hg⟩
      simp [this, hany]
    · have : req.any (fun r => granted.contains r) = false := by
        rw [Bool.eq_false_iff]
        intro hc
        rcases List.any_eq_true.mp hc with ⟨r, hr, hg⟩
        exact hany ⟨r, hr, by simpa using hg⟩
      simp [this, hany]
  · intro hnone
    have : req.any (fun r => granted.contains r) = false := by
      rw [Bool.eq_false_iff]
      intro hc
      rcases List.any_eq_true.mp hc with ⟨r, hr, hg⟩
      exact hnone ⟨r, hr, by simpa using hg⟩
    simp only [rolesGuardCanActivate, hne, Bool.false_eq_true, if_false, this]

/-- Witness for C1 at the spec's concrete scenario: required =
{admin, super_admin}, granted = {read} is denied with both lists in the
message. -/
theorem rolesGuard_any_rule_witness :
    rolesGuardCanActivate (some ["admin", "super_admin"]) (some { roles := some ["read"] }) =
      .error ⟨403, "Access denied. Required roles: admin, super_admin. Your roles: read"⟩ := by
  have h := (rolesGuard_any_rule ["admin", "super_admin"] ["read"] (by decide)).2 (by decide)
  exact h.trans (by decide)

/-- Helper: the ALL-rule condition of the permission guards as a proposition. -/
lemma all_contains_iff (req granted : List String) :
    (req.all (fun p => granted.contains p) = true) ↔ ∀ p ∈ req, p ∈ granted := by
  simp [List.all_eq_true]

/-- Helper: membership in the guards' computed missing list is exactly
membership in the set difference required minus granted. -/
lemma missing_filter_iff (req granted : List String) (x : String) :
    x ∈ req.filter (fun p => !(granted.contains p)) ↔ x ∈ req ∧ x ∉ granted := by
  simp [List.mem_filter]

/-- C2: for the ALL rule (action-permission and module-permission guards),
with a non-empty required list and a user whose `permissions` field is
present, access is allowed iff every required token is granted; on denial the
error message carries the missing list, whose membership is exactly
required minus granted. -/
theorem allRule_subset_and_missing (req granted : List String) (hreq : req ≠ []) :
    (permissionsGuardCanActivate (some req) (some { permissions := some granted }) = .ok true ↔
      ∀ p ∈ req, p ∈ granted) ∧
    (modulePermissionsGuardCanActivate (some req) (some { permissions := some granted }) = .ok true ↔
      ∀ p ∈ req, p ∈ granted) ∧
    (¬ (∀ p ∈ req, p ∈ granted) →
      permissionsGuardCanActivate (some req) (some { permissions := some granted }) =
        .error ⟨403, "Access denied. Missing permissions: " ++
          String.intercalate ", " (req.filter (fun p => !(granted.contains p))) ++
          ". Your permissions: " ++ String.intercalate ", " granted⟩ ∧
      modulePermissionsGuardCanActivate (some req) (some { permissions := some granted }) =
        .error ⟨403, "Access denied. Missing permissions: " ++
          String.intercalate ", " (req.filter (fun p => !(granted.contains p)))⟩) ∧
    (∀ x, x ∈ req.filter (fun p => !(granted.contains p)) ↔ x ∈ req ∧ x ∉ granted) := by
  have hne : req.isEmpty = false := by
    cases req with
    | nil => exact absurd rfl hreq
    | cons a l => rfl
  refine ⟨?_, ?_, ?_, fun x => missing_filter_iff req granted x⟩
  · simp only [permissionsGuardCanActivate, hne, Bool.false_eq_true, if_false]
    by_cases hall : ∀ p ∈ req, p ∈ granted
    · have := (all_contains_iff req granted).mpr hall
      simp [this, hall]
    · have : req.all (fun p => granted.contains p) = false := by
        rw [Bool.eq_false_iff]
        exact fun hc => hall ((all_contains_iff req granted).mp hc)
      simp [this, hall]
  · simp only [modulePermissionsGuardCanActivate, hne, Bool.false_eq_true, if_false]
    by_cases hall : ∀ p ∈ req, p ∈ granted
    · have := (all_contains_iff req granted).mpr hall
      simp [this, hall]
    · have : req.all (fun p => granted.contains p) = false := by
        rw [Bool.eq_false_iff]
        exact fun hc => hall ((all_contains_iff req granted).mp hc)
      simp [this, hall]
  · intro hall
    have : req.all (fun p => granted.contains p) = false := by
      rw [Bool.eq_false_iff]
      exact fun hc => hall ((all_contains_iff req granted).mp hc)
    constructor
    · simp only [permissionsGuardCanActivate, hne, Bool.false_eq_true, if_false, this]
    · simp only [modulePermissionsGuardCanActivate, hne, Bool.false_eq_true, if_false, this]

/-- Witness for C2 at the spec's concrete shape: required = {read, create},
granted = {read} is denied by both ALL guards with missing set {create}. -/
theorem allRule_subset_and_missing_witness :
    permissionsGuardCanActivate (some ["read", "create"]) (some { permissions := some ["read"] }) =
      .error ⟨403, "Access denied. Missing permissions: create. Your permissions: read"⟩ ∧
    modulePermissionsGuardCanActivate (some ["read", "create"]) (some { permissions := some ["read"] }) =
      .error ⟨403, "Access denied. Missing permissions: create"⟩ := by
  have h := ((allRule_subset_and_missing ["read", "create"] ["read"] (by decide)).2.2.1 (by decide))
  exact ⟨h.1.trans (by decide), h.2.trans (by decide)⟩

/-- C3 counterexample: an identity whose granted set is present but empty is
NOT denied with the MissingCapabilities error (`User permissions not found`).
The empty array is truthy in JS, so `!user.permissions` does not fire and the
guard falls through to the match rule, throwing the insufficient-capabilities
error instead. -/
theorem emptyGranted_not_missingCapabilities :
    modulePermissionsGuardCanActivate (some ["orders:refund"])
        (some { permissions := some [] }) =
      .error ⟨403, "Access denied. Missing permissions: orders:refund"⟩ ∧
    modulePermissionsGuardCanActivate (some ["orders:refund"])
        (some { permissions := some [] }) ≠
      .error ⟨403, "User permissions not found"⟩ := ⟨by decide, by decide⟩

/-- C3 amended: if the route's required set is absent or empty the
authorization guards allow unconditionally, for every identity; if the
identity is absent or its granted-capability field is absent they deny with
the MissingCapabilities error; an identity with a present-but-empty granted
set instead falls through to the match rule and is denied with the
insufficient-capabilities error listing the whole required set. -/
theorem guard_preconditions_amended (req : List String) (user : Option GuardUser)
    (hreq : req ≠ []) :
    (∀ u : Option GuardUser,
       permissionsGuardCanActivate none u = .ok true ∧
       permissionsGuardCanActivate (some []) u = .ok true ∧
       modulePermissionsGuardCanActivate none u = .ok true ∧
       modulePermissionsGuardCanActivate (some []) u = .ok true) ∧
    ((user = none ∨ (∃ u, user = some u ∧ u.permissions = none)) →
       permissionsGuardCanActivate (some req) user =
         .error ⟨403, "User permissions not found"⟩ ∧
       modulePermissionsGuardCanActivate (some req) user =
         .error ⟨403, "User permissions not found"⟩) ∧
    (modulePermissionsGuardCanActivate (some req) (some { permissions := some [] }) =
       .error ⟨403, "Access denied. Missing permissions: " ++
         String.intercalate ", " req⟩) := by
  have hne : req.isEmpty = false := by
    cases req with
    | nil => exact absurd rfl hreq
    | cons a l => rfl
  refine ⟨fun u => ⟨rfl, rfl, rfl, rfl⟩, ?_, ?_⟩
  · rintro (rfl | ⟨u, rfl, hperm⟩)
    · constructor
      · simp only [permissionsGuardCanActivate, hne, Bool.false_eq_true, if_false]
      · simp only [modulePermissionsGuardCanActivate, hne, Bool.false_eq_true, if_false]
    · constructor
      · simp only [permissionsGuardCanActivate, hne, Bool.false_eq_true, if_false, hperm]
      · simp only [modulePermissionsGuardCanActivate, hne, Bool.false_eq_true, if_false, hperm]
  · have hall : req.all (fun p => ([] : List String).contains p) = false := by
      cases req with
      | nil => exact absurd rfl hreq
      | cons a l => rfl
    have hfil : req.filter (fun p => !(([] : List String).contains p)) = req := by
      simp
    simp only [modulePermissionsGuardCanActivate, hne, Bool.false_eq_true, if_false,
      hall, hfil]

/-- Witness for C3 amended: a missing identity on a read-protected route is
denied with the MissingCapabilities error, while an absent requirement allows
a missing identity through. -/
theorem guard_preconditions_amended_witness :
    permissionsGuardCanActivate (some ["read"]) none =
      Except.error ⟨403, "User permissions not found"⟩ ∧
    permissionsGuardCanActivate none none = Except.ok true := by
  have h := guard_preconditions_amended ["read"] none (by decide)
  exact ⟨(h.2.1 (Or.inl rfl)).1, (h.1 none).1⟩

/-- Helper: an authentication failure short-circuits the example2 guard
chain, whatever the route's required permissions are. -/
lemma chain_of_auth_error (isPublic : Bool) (req : Request) (e : HttpException)
    (h : authGuardCanActivate isPublic req = .error e)
    (required : Option (List String)) :
    example2GuardChain isPublic required req = .error e := by
  simp [example2GuardChain, h]

/-- Helper: a header whose first space-separated word is not exactly `Bearer`
yields no token. -/
lemma extract_none_of_scheme (h : String)
    (hs : (jsSplitSpace h).headD "" ≠ "Bearer") :
    extractTokenFromHeader (some h) = none := by
  have hrw : extractTokenFromHeader (some h) =
      if h.isEmpty then none
      else if (jsSplitSpace h).headD "" = "Bearer" then (jsSplitSpace h)[1]? else none := rfl
  rw [hrw]
  by_cases he : h.isEmpty = true
  · rw [if_pos he]
  · rw [if_neg he, if_neg hs]

/-- Helper: the example2 guard's inline token map misses exactly when the
static predefined-token table of the credential store misses — the two share
the same four token keys — so a token found in neither the dynamic nor the
static store is in particular unknown to the guard. -/
lemma authGuardMap_mirrors_static (tok : String) :
    authGuardValidateToken tok = none ↔
    (predefinedTokens.find? (fun p => p.1 == tok)).map Prod.snd = none := by
  simp [authGuardValidateToken, Option.map_eq_none', List.find?_eq_none,
    authGuardUsers, predefinedTokens]

/-- C4: on a non-public route, a missing header or a scheme word other than
exactly `Bearer` yields the MissingToken 401, and a token found in neither
store yields the InvalidToken 401 (the guard's inline map carries exactly the
static tokens, so a miss in both stores is a miss for the guard); in all
these cases the guard chain returns the authentication error for every
required-permission set, so the authorization stage never runs. -/
theorem authGuard_failure_taxonomy (req : Request) :
    (req.authorizationHeader = none →
       authGuardCanActivate false req = .error missingTokenError ∧
       ∀ required, example2GuardChain false required req = .error missingTokenError) ∧
    (∀ h, req.authorizationHeader = some h →
       (jsSplitSpace h).headD "" ≠ "Bearer" →
       authGuardCanActivate false req = .error missingTokenError ∧
       ∀ required, example2GuardChain false required req = .error missingTokenError) ∧
    (∀ tok, extractTokenFromHeader req.authorizationHeader = some tok →
       tok ≠ "" → authGuardValidateToken tok = none →
       authGuardCanActivate false req = .error invalidTokenError ∧
       ∀ required, example2GuardChain false required req = .error invalidTokenError) ∧
    (∀ tok (m : TokenMap TokenRecord), validateToken m tok = none →
       authGuardValidateToken tok = none) ∧
    missingTokenError.status = 401 ∧ invalidTokenError.status = 401 := by
  refine ⟨?_, ?_, ?_, ?_, rfl, rfl⟩
  · intro hh
    have hauth : authGuardCanActivate false req = .error missingTokenError := by
      simp [authGuardCanActivate, extractTokenFromHeader, hh]
    exact ⟨hauth, fun required => chain_of_auth_error false req _ hauth required⟩
  · intro h hh hs
    have hauth : authGuardCanActivate false req = .error missingTokenError := by
      simp [authGuardCanActivate, hh, extract_none_of_scheme h hs]
    exact ⟨hauth, fun required => chain_of_auth_error false req _ hauth required⟩
  · intro tok hex htok hval
    have hemp : tok.isEmpty = false := by
      rw [Bool.eq_false_iff]
      intro hc
      exact htok ((String.isEmpty_iff tok).mp hc)
    have hauth : authGuardCanActivate false req = .error invalidTokenError := by
      simp [authGuardCanActivate, hex, hemp, hval]
    exact ⟨hauth, fun required => chain_of_auth_error false req _ hauth required⟩
  · intro tok m hv
    simp only [validateToken] at hv
    by_cases hh : tokenMapHas m tok = true
    · rw [if_pos hh] at hv
      rw [tokenMapHas, hv] at hh
      simp at hh
    · rw [if_neg hh] at hv
      exact (authGuardMap_mirrors_static tok).mpr hv

/-- Witness for C4: a request with no header, one with a `Basic` scheme, and
one bearing an unknown token are each rejected 401 by the chain for a
read-protected route, with the missing-token error for the first two and the
invalid-token error for the third. -/
theorem authGuard_failure_taxonomy_witness :
    example2GuardChain false (some ["read"]) ⟨none, none⟩ =
      .error missingTokenError ∧
    example2GuardChain false (some ["read"]) ⟨some "Basic abc", none⟩ =
      .error missingTokenError ∧
    example2GuardChain false (some ["read"]) ⟨some "Bearer no-such-token", none⟩ =
      .error invalidTokenError := by
  refine ⟨?_, ?_, ?_⟩
  · exact ((authGuard_failure_taxonomy ⟨none, none⟩).1 rfl).2 (some ["read"])
  · exact ((authGuard_failure_taxonomy ⟨some "Basic abc", none⟩).2.1 "Basic abc" rfl
      (by decide)).2 (some ["read"])
  · exact ((authGuard_failure_taxonomy ⟨some "Bearer no-such-token", none⟩).2.2.1
      "no-such-token" (by decide) (by decide) (by decide)).2 (some ["read"])

/-- Helper: the dynamic-first / static-fallback lookup shape shared by both
`validateToken` functions. -/
lemma dynThenStatic_order {α : Type} (dynGet staticRes result : Option α)
    (hres : result = if dynGet.isSome then dynGet else staticRes) :
    (dynGet.isSome = true → result = dynGet) ∧
    (dynGet.isSome = false → result = staticRes) ∧
    (result = none ↔ dynGet = none ∧ staticRes = none) := by
  cases dynGet with
  | some v => subst hres; simp
  | none => subst hres; simp

/-- C5: both `validateToken` functions look the token up in the dynamic map
first, fall back to the predefined table only on a miss, and return `null`
exactly when the token is in neither — a pure total lookup that never
throws. -/
theorem validateToken_resolution_order (m : TokenMap TokenRecord)
    (m3 : TokenMap ModuleTokenRecord) (token : String) :
    ((tokenMapHas m token = true → validateToken m token = tokenMapGet m token) ∧
     (tokenMapHas m token = false →
        validateToken m token =
          (predefinedTokens.find? (fun p => p.1 == token)).map Prod.snd) ∧
     (validateToken m token = none ↔
        tokenMapGet m token = none ∧
        (predefinedTokens.find? (fun p => p.1 == token)).map Prod.snd = none)) ∧
    ((tokenMapHas m3 token = true → validateToken3 m3 token = tokenMapGet m3 token) ∧
     (tokenMapHas m3 token = false →
        validateToken3 m3 token =
          (predefinedTokens3.find? (fun p => p.1 == token)).map Prod.snd) ∧
     (validateToken3 m3 token = none ↔
        tokenMapGet m3 token = none ∧
        (predefinedTokens3.find? (fun p => p.1 == token)).map Prod.snd = none)) := by
  constructor
  · exact dynThenStatic_order (tokenMapGet m token) _ _ rfl
  · exact dynThenStatic_order (tokenMapGet m3 token) _ _ rfl

/-- Witness for C5: a dynamic entry shadows the static entry of the same
key, and an unknown token resolves to `null`. -/
theorem validateToken_resolution_order_witness :
    validateToken [("token-read-only", ⟨"x", []⟩)] "token-read-only" =
      some ⟨"x", []⟩ ∧
    validateToken [] "no-such-token" = none := by
  constructor
  · exact ((validateToken_resolution_order [("token-read-only", ⟨"x", []⟩)] []
      "token-read-only").1.1 (by decide)).trans (by decide)
  · exact ((validateToken_resolution_order [] [] "no-such-token").1.2.1
      (by decide)).trans (by decide)

/-- Helper: `Map.set` under a different key does not change what
`validateToken` resolves. -/
lemma validateToken_set_ne (m : TokenMap TokenRecord) (k tok : String)
    (v : TokenRecord) (hk : k ≠ tok) :
    validateToken (tokenMapSet m k v) tok = validateToken m tok := by
  have hbeq : (k == tok) = false := beq_eq_false_iff_ne.mpr hk
  have hget : tokenMapGet (tokenMapSet m k v) tok = tokenMapGet m tok := by
    simp [tokenMapGet, tokenMapSet, List.find?, hbeq]
  simp [validateToken, tokenMapHas, hget]

/-- Helper: a token just stored resolves to the stored record (the dynamic
map is consulted before the static table). -/
lemma validateToken_set_self (m : TokenMap TokenRecord) (tok : String)
    (v : TokenRecord) :
    validateToken (tokenMapSet m tok v) tok = some v := by
  have hget : tokenMapGet (tokenMapSet m tok v) tok = some v := by
    simp [tokenMapGet, tokenMapSet, List.find?]
  simp [validateToken, tokenMapHas, hget]

/-- C6 counterexample: expiry IS modeled in one of the three variants — the
example1 `JwtModule.register` call sets `expiresIn: '24h'` (the source's own
comment: "Token expires in 24 hours"), refuting the claim that no variant
models token expiry. -/
theorem tokenExpiry_counterexample :
    tokenExpiryConfig CapabilityVariant.hierarchicalRole = some "24h" ∧
    ¬ (∀ v : CapabilityVariant, tokenExpiryConfig v = none) := by
  refine ⟨rfl, fun h => ?_⟩
  exact absurd (h CapabilityVariant.hierarchicalRole) (by decide)

/-- C6 amended: in the action- and module-permission variants no expiry is
modeled — a resolvable token stays resolvable to the same record across
further token issuance (the map has no eviction) — while the
hierarchical-role variant issues JWTs configured to expire 24 hours after
issuance. -/
theorem tokenLifetime_amended (m : TokenMap TokenRecord) (tok : String)
    (r : TokenRecord) (u : String) (p : List String) (now : Nat) (rand : String)
    (hres : validateToken m tok = some r) (hne : makeToken u now rand ≠ tok) :
    tokenExpiryConfig CapabilityVariant.actionPermission = none ∧
    tokenExpiryConfig CapabilityVariant.modulePermission = none ∧
    tokenExpiryConfig CapabilityVariant.hierarchicalRole = some "24h" ∧
    validateToken (generateToken m u p now rand).1 tok = some r ∧
    (∀ t : JwtToken, ∀ nowMs, t.issuedAtMs + jwtExpiryMs < nowMs →
       jwtVerify t nowMs = none) := by
  refine ⟨rfl, rfl, rfl, ?_, ?_⟩
  · exact (validateToken_set_ne m (makeToken u now rand) tok ⟨u, p⟩ hne).trans hres
  · intro t nowMs hlate
    have : ¬ nowMs ≤ t.issuedAtMs + jwtExpiryMs := not_le.mpr hlate
    simp [jwtVerify, this]

/-- Witness for C6 amended: inserting a fresh dynamic token leaves the static
`token-read-only` resolvable, and a JWT is no longer verifiable one
millisecond past its 24-hour lifetime. -/
theorem tokenLifetime_amended_witness :
    validateToken (generateToken [] "u" [] 0 "r").1 "token-read-only" =
      some ⟨"reader", ["read"]⟩ ∧
    jwtVerify ⟨⟨"4", "reader", "reader@example.com", ["read"]⟩, 0⟩ 86400001 = none := by
  have h := tokenLifetime_amended [] "token-read-only" ⟨"reader", ["read"]⟩
    "u" [] 0 "r" (by decide) (by decide)
  exact ⟨h.2.2.2.1, h.2.2.2.2 ⟨⟨"4", "reader", "reader@example.com", ["read"]⟩, 0⟩
    86400001 (by decide)⟩

/-- C7: example1 login validates by exact username match with the password
ignored, so `reader` with any password succeeds, and the issued token
resolves (within its lifetime) to the reader identity with granted set
{read}. -/
theorem login_reader_any_password (password : String) (issuedMs nowMs : Nat)
    (hnow : nowMs ≤ issuedMs + jwtExpiryMs) :
    (∀ u p q : String, jwtValidateUser u p = jwtValidateUser u q) ∧
    (∀ u p : String,
       jwtValidateUser u p = example1Users.find? (fun x => x.username == u)) ∧
    ∃ r : LoginResult,
      example1Login "reader" password issuedMs = .ok r ∧
      r.roles = [Role.READ] ∧
      jwtVerify r.token nowMs =
        some ⟨"4", "reader", "reader@example.com", [Role.READ]⟩ := by
  refine ⟨fun u p q => rfl, fun u p => rfl, ?_⟩
  refine ⟨⟨"Login successful",
    jwtSign ⟨"4", "reader", "reader@example.com", [Role.READ]⟩ issuedMs,
    "reader", [Role.READ]⟩, rfl, rfl, ?_⟩
  show (if nowMs ≤ issuedMs + jwtExpiryMs then
      some (⟨"4", "reader", "reader@example.com", [Role.READ]⟩ : UserData)
    else none) = some ⟨"4", "reader", "reader@example.com", [Role.READ]⟩
  rw [if_pos hnow]

/-- Witness for C7 at an arbitrary concrete password, resolving the token at
the issuance instant. -/
theorem login_reader_any_password_witness :
    ∃ r : LoginResult,
      example1Login "reader" "literally-anything" 0 = .ok r ∧
      r.roles = ["read"] ∧
      jwtVerify r.token 0 = some ⟨"4", "reader", "reader@example.com", ["read"]⟩ :=
  (login_reader_any_password "literally-anything" 0 0 (by decide)).2.2

/-- C8: on a route marked public the example2 `AuthGuard` succeeds
immediately for every request — whatever the authorization header holds —
and returns the request unchanged, so no identity is attached; every route of
the example2 controller marked public carries no permission requirement, and
on such routes the full guard chain succeeds with the request unchanged. -/
theorem publicRoute_bypass (req : Request) :
    authGuardCanActivate true req = .ok req ∧
    (∀ rk meta, (rk, meta) ∈ example2Routes → meta.isPublic = true →
       meta.requiredPermissions = none ∧
       example2GuardChain meta.isPublic meta.requiredPermissions req = .ok req) := by
  refine ⟨rfl, ?_⟩
  intro rk meta hmem hpub
  simp only [example2Routes, List.mem_cons, List.not_mem_nil, or_false] at hmem
  rcases hmem with h | h | h | h | h | h | h | h
  all_goals
    injection h with h1 h2
  all_goals
    subst h2
  all_goals
    first
      | exact ⟨rfl, rfl⟩
      | simp at hpub

/-- Witness for C8: the public posts route with a header-less request. -/
theorem publicRoute_bypass_witness :
    example2GuardChain true none ⟨none, none⟩ = .ok ⟨none, none⟩ :=
  ((publicRoute_bypass ⟨none, none⟩).2 "GET /example2/posts/public"
    ⟨true, none⟩ (by decide) rfl).2

/-- C9: the bearer-header parser takes exactly the second space-separated
segment — `Bearer a b` yields token `a` with the trailing segment ignored —
while a bare `Bearer` (no second segment) or `Bearer ` (empty second
segment) is treated as a missing token and rejected with the MissingToken
401 rather than looked up. -/
theorem bearer_parsing_edges :
    extractTokenFromHeader (some "Bearer a b") = some "a" ∧
    extractTokenFromHeader (some "Bearer") = none ∧
    extractTokenFromHeader (some "Bearer ") = some "" ∧
    authGuardCanActivate false ⟨some "Bearer", none⟩ = .error missingTokenError ∧
    authGuardCanActivate false ⟨some "Bearer ", none⟩ = .error missingTokenError ∧
    authGuardCanActivate false ⟨some "Bearer a b", none⟩ = .error invalidTokenError :=
  ⟨by decide, by decide, by decide, by decide, by decide, by decide⟩

/-- One issuance step of the example2 store:
`(username, permissions, Date.now(), random suffix)`. -/
def applyGenerates (ops : List (String × List String × Nat × String))
    (m : TokenMap TokenRecord) : TokenMap TokenRecord :=
  ops.foldl (fun acc op => (generateToken acc op.1 op.2.1 op.2.2.1 op.2.2.2).1) m

/-- Helper: a sequence of issuances whose generated token strings all differ
from `tok` leaves the resolution of `tok` unchanged. -/
lemma validateToken_applyGenerates
    (ops : List (String × List String × Nat × String)) :
    ∀ (m : TokenMap TokenRecord) (tok : String),
      (∀ op ∈ ops, makeToken op.1 op.2.2.1 op.2.2.2 ≠ tok) →
      validateToken (applyGenerates ops m) tok = validateToken m tok := by
  induction ops with
  | nil => intro m tok _; rfl
  | cons op rest ih =>
    intro m tok hf
    have h1 : applyGenerates (op :: rest) m =
        applyGenerates rest (generateToken m op.1 op.2.1 op.2.2.1 op.2.2.2).1 := rfl
    rw [h1, ih _ tok (fun o ho => hf o (List.mem_cons_of_mem op ho))]
    exact validateToken_set_ne m (makeToken op.1 op.2.2.1 op.2.2.2) tok
      ⟨op.1, op.2.1⟩ (hf op (List.mem_cons_self op rest))

/-- C10: issue/resolve round-trip — a token issued by `generateToken`
resolves to exactly the record stored at issuance, the dynamic-map hit taking
precedence over any static entry, and it keeps doing so after any further
issuances whose generated token strings differ from it. -/
theorem generate_validate_roundtrip (m : TokenMap TokenRecord) (u : String)
    (p : List String) (now : Nat) (rand : String)
    (ops : List (String × List String × Nat × String))
    (hfresh : ∀ op ∈ ops,
      makeToken op.1 op.2.2.1 op.2.2.2 ≠ (generateToken m u p now rand).2) :
    validateToken (applyGenerates ops (generateToken m u p now rand).1)
      (generateToken m u p now rand).2 = some ⟨u, p⟩ := by
  rw [validateToken_applyGenerates ops (generateToken m u p now rand).1
    (generateToken m u p now rand).2 hfresh]
  exact validateToken_set_self m (makeToken u now rand) ⟨u, p⟩

/-- Witness for C10: issue a token for `reader`, then issue another token for
a different seed; the first token still resolves to its issuance record. -/
theorem generate_validate_roundtrip_witness :
    validateToken
      (applyGenerates [("x", [], 1, "y")] (generateToken [] "reader" ["read"] 0 "abc").1)
      (generateToken [] "reader" ["read"] 0 "abc").2 = some ⟨"reader", ["read"]⟩ :=
  generate_validate_roundtrip [] "reader" ["read"] 0 "abc" [("x", [], 1, "y")]
    (by decide)

end RBAC
